import Mathlib

/-!
Shallow embedding of the core of Grocy_Amazon_AutoBuy
(`src/grocy_amazon_autobuy/models.py`, `order_service.py`, `telegram_client.py`).

Conventions of the embedding:
* Python `float` stock quantities are modelled as `ℚ` (every concrete value used
  in a theorem below is a dyadic rational, exactly representable as a double, so
  the model agrees with Python float arithmetic on those inputs).
* Python `datetime` values are reduced to the one projection the code ever uses,
  the calendar day, modelled as `ℤ`; `datetime.now().date()` becomes an explicit
  `today : ℤ` parameter.
* Python `dict`s keyed by ASIN are modelled as association lists with a
  `find?`-based lookup; `product.amazon_asin` may be `None`, and Python happily
  looks such a value up in a `str`-keyed dict, so the pending-delivery map is
  keyed by `Option String`.
* Methods that mutate `self` become functions returning the updated value;
  methods that both answer and mutate (`is_delivery_pending`) return a pair.
* Log strings are abbreviated to stable tags; which branch produced a denial is
  captured exactly by the `CanOrderReason` inductive.
-/

namespace GrocyAutoBuy

/-- `models.OrderStatus`: the six states of an order. -/
inductive OrderStatus where
  | pending
  | added_to_list
  | voice_ordered
  | confirmed
  | failed
  | skipped
deriving DecidableEq, Repr

/-- The `value` string of each `OrderStatus` member (used by `_save_history`). -/
def OrderStatus.value : OrderStatus → String
  | .pending => "pending"
  | .added_to_list => "added_to_list"
  | .voice_ordered => "voice_ordered"
  | .confirmed => "confirmed"
  | .failed => "failed"
  | .skipped => "skipped"

/-- Python truthiness of an `Optional[str]`: `None` and `""` are falsy
(`if not product.amazon_asin`). -/
def strTruthy : Option String → Bool
  | none => false
  | some s => decide (s ≠ "")

/-- Python `str.strip()`: remove whitespace from both ends of the string
(modelled over the character list so that it evaluates structurally). -/
def pyStrip (s : String) : String :=
  String.mk
    (((s.data.dropWhile Char.isWhitespace).reverse.dropWhile
        Char.isWhitespace).reverse)

/-- `models.Product`: a Grocy product with Amazon data.  `missing_amount` and
`packages_to_order` are the fields computed by `__post_init__`. -/
structure Product where
  id : ℤ
  name : String
  stock_amount : ℚ
  stock_min_amount : ℚ
  qu_id_stock : ℤ
  qu_name : Option String
  amazon_asin : Option String
  amazon_order_units : ℤ
  missing_amount : ℚ
  packages_to_order : ℤ
deriving DecidableEq, Repr

/-- `Product.__post_init__`: construct a `Product` from the dataclass arguments,
computing `missing_amount = max(0, stock_min_amount - stock_amount)` and
`packages_to_order = max(1, int((missing + units - 1) // units))` when
`missing > 0 and units > 0`, else `0`.  Python float floor-division `//` is
`Int.floor` of the exact quotient (the operands here are non-negative, so the
final `int(...)` truncation is the identity). -/
def Product.make (id : ℤ) (name : String) (stock_amount stock_min_amount : ℚ)
    (qu_id_stock : ℤ) (qu_name : Option String) (amazon_asin : Option String)
    (amazon_order_units : ℤ) : Product :=
  let missing : ℚ := max 0 (stock_min_amount - stock_amount)
  let packages : ℤ :=
    if 0 < missing ∧ 0 < amazon_order_units then
      max 1 ⌊(missing + (amazon_order_units : ℚ) - 1) / (amazon_order_units : ℚ)⌋
    else 0
  { id := id, name := name, stock_amount := stock_amount,
    stock_min_amount := stock_min_amount, qu_id_stock := qu_id_stock,
    qu_name := qu_name, amazon_asin := amazon_asin,
    amazon_order_units := amazon_order_units,
    missing_amount := missing, packages_to_order := packages }

/-- `Product.needs_reorder`: `missing_amount > 0 and amazon_asin is not None
and amazon_asin.strip() != ""`. -/
def Product.needs_reorder (p : Product) : Bool :=
  decide (0 < p.missing_amount) &&
    (match p.amazon_asin with
     | none => false
     | some s => decide (pyStrip s ≠ ""))

/-- The attribute names an instance of `models.Product` exposes: the dataclass
fields (including the two `field(init=False)` computed ones) plus the class
attributes `needs_reorder` (property) and `get_order_description` (method).
Note there is no attribute named `amazon_order_unit` (singular). -/
def productAttrNames : List String :=
  ["id", "name", "stock_amount", "stock_min_amount", "qu_id_stock", "qu_name",
   "amazon_asin", "amazon_order_units", "missing_amount", "packages_to_order",
   "needs_reorder", "get_order_description"]

/-- Whether Python attribute lookup `product.<a>` succeeds on a `Product`
(otherwise it raises `AttributeError`). -/
def Product.hasAttrName (_ : Product) (a : String) : Bool :=
  productAttrNames.contains a

/-- `models.OrderRequest`: an order attempt.  `created_at`/`processed_at` keep
only their calendar day (`created_day`, `processed_day`). -/
structure OrderRequest where
  product : Product
  quantity : ℤ
  asin : Option String
  created_day : ℤ
  status : OrderStatus
  order_id : Option String
  error_message : Option String
  processed_day : Option ℤ
deriving DecidableEq, Repr

/-- `OrderRequest(...)` with the dataclass defaults
(`status=PENDING`, `order_id=None`, `error_message=None`, `processed_at=None`). -/
def OrderRequest.make (product : Product) (quantity : ℤ) (asin : Option String)
    (created_day : ℤ) : OrderRequest :=
  { product := product, quantity := quantity, asin := asin,
    created_day := created_day, status := .pending, order_id := none,
    error_message := none, processed_day := none }

/-- `OrderRequest.mark_success`: status := ADDED_TO_LIST, records `order_id`
and `processed_at` (its day). -/
def OrderRequest.mark_success (o : OrderRequest) (order_id : Option String)
    (today : ℤ) : OrderRequest :=
  { o with
      status := .added_to_list, order_id := order_id,
      processed_day := some today }

/-- `OrderRequest.mark_failed`: status := FAILED, records the error and
`processed_at` (its day). -/
def OrderRequest.mark_failed (o : OrderRequest) (error : String)
    (today : ℤ) : OrderRequest :=
  { o with
      status := .failed, error_message := some error,
      processed_day := some today }

/-- Model of a Python `dict` as an insertion-ordered association list:
lookup (`k in d` / `d[k]`). -/
def dictLookup {κ β : Type} [DecidableEq κ] (l : List (κ × β)) (k : κ) :
    Option β :=
  (l.find? (fun kv => kv.1 = k)).map (fun kv => kv.2)

/-- Dict assignment `d[k] = v`: replace in place when the key exists
(Python keeps the original position), else append. -/
def dictInsert {κ β : Type} [DecidableEq κ] (l : List (κ × β)) (k : κ) (v : β) :
    List (κ × β) :=
  if (l.find? (fun kv => kv.1 = k)).isSome then
    l.map (fun kv => if kv.1 = k then (k, v) else kv)
  else
    l ++ [(k, v)]

/-- Dict deletion `del d[k]`. -/
def dictErase {κ β : Type} [DecidableEq κ] (l : List (κ × β)) (k : κ) :
    List (κ × β) :=
  l.filter (fun kv => decide (kv.1 ≠ k))

/-- Lookup in the pending-deliveries map (`asin in self.pending_deliveries` /
`self.pending_deliveries[asin]`). -/
def pdLookup (l : List (Option String × ℚ)) (k : Option String) : Option ℚ :=
  dictLookup l k

/-- Dict assignment `self.pending_deliveries[asin] = v`. -/
def pdInsert (l : List (Option String × ℚ)) (k : Option String) (v : ℚ) :
    List (Option String × ℚ) :=
  dictInsert l k v

/-- Dict deletion `del self.pending_deliveries[asin]`. -/
def pdErase (l : List (Option String × ℚ)) (k : Option String) :
    List (Option String × ℚ) :=
  dictErase l k

/-- `models.OrderHistory`: the order ledger plus the pending-delivery markers
(ASIN → stock at order time). -/
structure OrderHistory where
  orders : List OrderRequest
  pending_deliveries : List (Option String × ℚ)
deriving DecidableEq, Repr

/-- `OrderHistory()` with empty defaults. -/
def OrderHistory.empty : OrderHistory := { orders := [], pending_deliveries := [] }

/-- `OrderHistory.add_order`: append to the ledger. -/
def OrderHistory.add_order (h : OrderHistory) (o : OrderRequest) : OrderHistory :=
  { h with orders := h.orders ++ [o] }

/-- `OrderHistory.get_orders_today`: the orders created on the given day. -/
def OrderHistory.get_orders_today (h : OrderHistory) (today : ℤ) :
    List OrderRequest :=
  h.orders.filter (fun o => decide (o.created_day = today))

/-- `OrderHistory.count_orders_today`. -/
def OrderHistory.count_orders_today (h : OrderHistory) (today : ℤ) : ℕ :=
  (h.get_orders_today today).length

/-- `OrderHistory.mark_pending_delivery`: store the stock at order time. -/
def OrderHistory.mark_pending_delivery (h : OrderHistory) (asin : Option String)
    (stock_at_order : ℚ) : OrderHistory :=
  { h with pending_deliveries := pdInsert h.pending_deliveries asin stock_at_order }

/-- `OrderHistory.is_delivery_pending`: `False` if the ASIN is unmarked;
if marked and `current_stock > stock_at_order`, the marker is deleted and the
answer is `False`; otherwise `True` (the marker stays).  Returns the answer
together with the updated history. -/
def OrderHistory.is_delivery_pending (h : OrderHistory) (asin : Option String)
    (current_stock : ℚ) : Bool × OrderHistory :=
  match pdLookup h.pending_deliveries asin with
  | none => (false, h)
  | some stock_at_order =>
    if stock_at_order < current_stock then
      (false, { h with pending_deliveries := pdErase h.pending_deliveries asin })
    else
      (true, h)

/-- `OrderHistory.clear_pending_delivery`: remove the marker if present.
(Defined in `models.py`; no caller exists anywhere in the repository.) -/
def OrderHistory.clear_pending_delivery (h : OrderHistory)
    (asin : Option String) : OrderHistory :=
  { h with pending_deliveries := pdErase h.pending_deliveries asin }

/-! ### `order_service.py` -/

/-- Which branch of `OrderService.can_place_order` produced the answer; the
constructors carry the data interpolated into the corresponding message string
(`"Tageslimit erreicht (t/m)"`, `"Lieferung noch ausstehend (bestellt bei
Bestand s, aktuell c)"`, `"Keine Amazon ASIN hinterlegt"`, `"OK"`). -/
inductive CanOrderReason where
  | ok
  | dailyLimit (orders_today max_orders_per_day : ℕ)
  | deliveryPending (stock_at_order : Option ℚ) (current : ℚ)
  | noAsin
deriving DecidableEq, Repr

/-- The message string for a reason (abbreviated rendering of the German log
text; the numeric payload is in the `CanOrderReason`). -/
def CanOrderReason.message : CanOrderReason → String
  | .ok => "OK"
  | .dailyLimit _ _ => "Tageslimit erreicht"
  | .deliveryPending _ _ => "Lieferung noch ausstehend"
  | .noAsin => "Keine Amazon ASIN hinterlegt"

/-- The fields of `config.OrderSettings` that `OrderService` reads. -/
structure OrderSettings where
  mode : String
  dry_run : Bool
  notify_on_order : Bool
  max_orders_per_day : ℕ
deriving DecidableEq, Repr

/-- `OrderService.can_place_order`, checks in source order:
1. `count_orders_today() >= max_orders_per_day` → denied (daily limit);
2. `is_delivery_pending(product.amazon_asin, product.stock_amount)` → denied
   (delivery pending) — note this call may delete a healed marker;
3. `not product.amazon_asin` → denied (no ASIN);
4. otherwise allowed.
Returns `(allowed, reason, updated history)`. -/
def can_place_order (max_orders_per_day : ℕ) (today : ℤ) (h : OrderHistory)
    (p : Product) : Bool × CanOrderReason × OrderHistory :=
  let orders_today := h.count_orders_today today
  if max_orders_per_day ≤ orders_today then
    (false, .dailyLimit orders_today max_orders_per_day, h)
  else
    let r := h.is_delivery_pending p.amazon_asin p.stock_amount
    if r.1 then
      (false,
       .deliveryPending (pdLookup r.2.pending_deliveries p.amazon_asin)
         p.stock_amount,
       r.2)
    else if ¬ strTruthy p.amazon_asin then
      (false, .noAsin, r.2)
    else
      (true, .ok, r.2)

/-- What `OrderService._notify_order` did on one call (each flag mirrors a
statement of the source): whether the Home-Assistant notification was attempted,
whether the Telegram branch (`if self.telegram and not failed`) was entered,
whether the call `self.telegram.send_order_notification(...)` was actually
reached, and whether evaluating its arguments raised an `AttributeError` that
the surrounding `except Exception` caught and logged.  The argument expression
`product.amazon_order_unit or product.qu_name` (order_service.py line 375) is
modelled by the attribute-existence test `Product.hasAttrName`. -/
structure NotifyEffect where
  hass_notified : Bool
  telegram_branch_entered : Bool
  telegram_send_reached : Bool
  attribute_error_caught : Bool
deriving DecidableEq, Repr

/-- `OrderService._notify_order` (effect skeleton): returns immediately when
`notify_on_order` is off; otherwise notifies Home Assistant, then — when a
Telegram client is configured and the order did not fail — evaluates the
arguments of `send_order_notification`, which requires the attribute
`amazon_order_unit` on the product. -/
def notify_order (s : OrderSettings) (telegram_configured : Bool) (p : Product)
    (failed : Bool) : NotifyEffect :=
  if ¬ s.notify_on_order then
    { hass_notified := false, telegram_branch_entered := false,
      telegram_send_reached := false, attribute_error_caught := false }
  else if telegram_configured && !failed then
    if p.hasAttrName "amazon_order_unit" then
      { hass_notified := true, telegram_branch_entered := true,
        telegram_send_reached := true, attribute_error_caught := false }
    else
      { hass_notified := true, telegram_branch_entered := true,
        telegram_send_reached := false, attribute_error_caught := true }
  else
    { hass_notified := true, telegram_branch_entered := false,
      telegram_send_reached := false, attribute_error_caught := false }

/-- Result of `OrderService.process_order`: the returned `OrderRequest`, the
order history afterwards, whether `_save_history` ran, and the `_notify_order`
effect (`none` when `_notify_order` was not called). -/
structure ProcessResult where
  order : OrderRequest
  history : OrderHistory
  saved : Bool
  notify : Option NotifyEffect
deriving DecidableEq, Repr

/-- `OrderService.process_order`.  `fulfill_ok` is the boolean outcome of the
external fulfillment call for the `voice_order` / `shopping_list` modes
(`cart_link` and `notify_only` set `success = True` without an external call;
an unrecognised mode leaves `success = False`).  On success the order is
`mark_success`-ed (status becomes ADDED_TO_LIST), the pending-delivery marker
is set to the stock at order time, the order is appended to the history, the
history is saved and a notification goes out; on failure the order is
`mark_failed`-ed and only a failure notification goes out; when `can_place_order`
denies, the order is returned as SKIPPED with the reason text and nothing is
recorded. -/
def process_order (s : OrderSettings) (telegram_configured : Bool)
    (fulfill_ok : Bool) (today : ℤ) (h : OrderHistory) (p : Product) :
    ProcessResult :=
  let order0 := OrderRequest.make p p.packages_to_order p.amazon_asin today
  let c := can_place_order s.max_orders_per_day today h p
  if ¬ c.1 then
    { order := { order0 with
        status := .skipped, error_message := some c.2.1.message },
      history := c.2.2, saved := false, notify := none }
  else if s.dry_run then
    { order := { order0 with
        error_message := some "Dry Run - keine echte Bestellung" },
      history := c.2.2, saved := false,
      notify := some (notify_order s telegram_configured p false) }
  else
    let step : Bool × OrderRequest :=
      if s.mode = "cart_link" then
        (true, { order0 with
          status := .pending, error_message := some "Warenkorb-Link gesendet" })
      else if s.mode = "voice_order" then
        (fulfill_ok,
         if fulfill_ok then { order0 with status := .voice_ordered } else order0)
      else if s.mode = "shopping_list" then
        (fulfill_ok,
         if fulfill_ok then { order0 with status := .added_to_list } else order0)
      else if s.mode = "notify_only" then
        (true, { order0 with
          status := .pending,
          error_message := some "Nur Benachrichtigung (notify_only Modus)" })
      else
        (false, order0)
    if step.1 then
      let order1 := step.2.mark_success none today
      let h1 := c.2.2.mark_pending_delivery p.amazon_asin p.stock_amount
      let h2 := h1.add_order order1
      { order := order1, history := h2, saved := true,
        notify := some (notify_order s telegram_configured p false) }
    else
      let order1 := step.2.mark_failed "Bestellung fehlgeschlagen" today
      { order := order1, history := c.2.2, saved := false,
        notify := some (notify_order s telegram_configured p true) }

/-- One entry of the `"orders"` array written by `OrderService._save_history`
(timestamps reduced to their day, as everywhere in this model). -/
structure SavedOrder where
  asin : Option String
  product_name : String
  quantity : ℤ
  status : String
  created_day : ℤ
  processed_day : Option ℤ
  error_message : Option String
deriving DecidableEq, Repr

/-- The JSON document written by `_save_history`. -/
structure SavedHistory where
  orders : List SavedOrder
  pending_deliveries : List (Option String × ℚ)
deriving DecidableEq, Repr

/-- The per-order serialisation inside `_save_history`. -/
def orderToSaved (o : OrderRequest) : SavedOrder :=
  { asin := o.asin, product_name := o.product.name, quantity := o.quantity,
    status := o.status.value, created_day := o.created_day,
    processed_day := o.processed_day, error_message := o.error_message }

/-- `OrderService._save_history`: writes the last 100 orders
(`self.history.orders[-100:]`) and all pending-delivery markers. -/
def save_history (h : OrderHistory) : SavedHistory :=
  { orders := (h.orders.drop (h.orders.length - 100)).map orderToSaved,
    pending_deliveries := h.pending_deliveries }

/-- `OrderService._load_history` (the successful-parse path): builds a fresh
`OrderHistory()` and assigns only `pending_deliveries` from the file; the
`"orders"` array in the document is not read. -/
def load_history (d : SavedHistory) : OrderHistory :=
  { orders := [], pending_deliveries := d.pending_deliveries }

/-! ### `telegram_client.py` -/

/-- `telegram_client.TrackedMessage` (timestamps reduced to their day). -/
structure TrackedMessage where
  message_id : ℤ
  chat_id : String
  product_id : ℤ
  product_name : String
  asin : String
  quantity : ℤ
  unit : String
  cart_url : String
  current_stock : ℚ
  min_stock : ℚ
  created_day : ℤ
  ordered : Bool
  ordered_day : Option ℤ
  delivered : Bool
  delivered_day : Option ℤ
deriving DecidableEq, Repr

/-- One outbound Telegram API call issued by the client (`sendMessage`,
`editMessageText`, `deleteMessage`). -/
inductive TgEvent where
  | send
  | edit (message_id : ℤ)
  | delete (message_id : ℤ)
deriving DecidableEq, Repr

def TgEvent.isSend : TgEvent → Bool
  | .send => true
  | _ => false

/-- The `TelegramClient` state the tracking logic reads and writes:
`enabled` stands for `settings.enabled and bot_token and chat_id` (when false,
`send_message` returns `None` and `edit_message`/`delete_message` return `True`,
all without an API call), plus the `tracked_messages` dict (ASIN-keyed). -/
structure TgState where
  enabled : Bool
  chat_id : String
  tracked_messages : List (String × TrackedMessage)
deriving DecidableEq, Repr

/-- Dict lookup in `tracked_messages`. -/
def tmLookup (l : List (String × TrackedMessage)) (asin : String) :
    Option TrackedMessage :=
  dictLookup l asin

/-- Dict assignment `self.tracked_messages[asin] = m`. -/
def tmSet (l : List (String × TrackedMessage)) (asin : String)
    (m : TrackedMessage) : List (String × TrackedMessage) :=
  dictInsert l asin m

/-- Dict deletion `del self.tracked_messages[asin]`. -/
def tmErase (l : List (String × TrackedMessage)) (asin : String) :
    List (String × TrackedMessage) :=
  dictErase l asin

/-- `TelegramClient.send_message`: no-op returning `None` when disabled;
otherwise issues a `sendMessage` call whose outcome is the oracle
`api_send` (the message id on success, `None` on any API failure). -/
def tg_send_message (st : TgState) (api_send : Option ℤ) :
    Option ℤ × List TgEvent :=
  if st.enabled then (api_send, [.send]) else (none, [])

/-- `TelegramClient.edit_message`: returns `True` without a call when disabled;
otherwise issues `editMessageText`, with oracle outcome `api_edit`. -/
def tg_edit_message (st : TgState) (message_id : ℤ) (api_edit : Bool) :
    Bool × List TgEvent :=
  if st.enabled then (api_edit, [.edit message_id]) else (true, [])

/-- `TelegramClient.delete_message`: returns `True` without a call when
disabled; otherwise issues `deleteMessage`, with oracle outcome `api_delete`. -/
def tg_delete_message (st : TgState) (message_id : ℤ) (api_delete : Bool) :
    Bool × List TgEvent :=
  if st.enabled then (api_delete, [.delete message_id]) else (true, [])

/-- `TelegramClient._update_message_content`: re-render and edit the tracked
message for `asin` (no state change). -/
def tg_update_message_content (st : TgState) (asin : String) (api_edit : Bool) :
    Bool × List TgEvent :=
  match tmLookup st.tracked_messages asin with
  | none => (false, [])
  | some m => tg_edit_message st m.message_id api_edit

/-- `TelegramClient.update_stock`: `False` for an untracked ASIN; `True` with
no call when the stock is unchanged; otherwise store the new stock and edit the
message. -/
def tg_update_stock (st : TgState) (asin : String) (new_stock : ℚ)
    (api_edit : Bool) : Bool × TgState × List TgEvent :=
  match tmLookup st.tracked_messages asin with
  | none => (false, st, [])
  | some m =>
    if m.current_stock = new_stock then
      (true, st, [])
    else
      let st' := { st with
        tracked_messages :=
          tmSet st.tracked_messages asin { m with current_stock := new_stock } }
      let r := tg_update_message_content st' asin api_edit
      (r.1, st', r.2)

/-- `TelegramClient.send_order_notification`: if a tracked message exists for
the ASIN and it is ordered-but-not-delivered, only refresh the stock display;
if it exists and is not yet ordered, update its fields in place and edit the
existing message (returning `True`); otherwise send a fresh message with
buttons and, when the send returned a message id, track it (not ordered, not
delivered). -/
def tg_send_order_notification (st : TgState) (api_send : Option ℤ)
    (api_edit : Bool) (product_name : String) (product_id : ℤ) (quantity : ℤ)
    (asin : String) (current_stock min_stock : ℚ) (unit cart_url : String)
    (today : ℤ) : Bool × TgState × List TgEvent :=
  let fresh : Bool × TgState × List TgEvent :=
    let r := tg_send_message st api_send
    match r.1 with
    | some mid =>
      let m : TrackedMessage :=
        { message_id := mid, chat_id := st.chat_id, product_id := product_id,
          product_name := product_name, asin := asin, quantity := quantity,
          unit := unit, cart_url := cart_url, current_stock := current_stock,
          min_stock := min_stock, created_day := today, ordered := false,
          ordered_day := none, delivered := false, delivered_day := none }
      (true, { st with tracked_messages := tmSet st.tracked_messages asin m },
       r.2)
    | none => (false, st, r.2)
  match tmLookup st.tracked_messages asin with
  | some existing =>
    if existing.ordered && !existing.delivered then
      tg_update_stock st asin current_stock api_edit
    else if !existing.ordered then
      let st' := { st with
        tracked_messages := tmSet st.tracked_messages asin
          { existing with current_stock := current_stock, quantity := quantity } }
      let r := tg_update_message_content st' asin api_edit
      (true, st', r.2)
    else
      fresh
  | none => fresh

/-- `TelegramClient.cancel_order`: `False` for an untracked ASIN; otherwise
delete the notification message, drop the tracking entry and return `True`. -/
def tg_cancel_order (st : TgState) (api_delete : Bool) (asin : String) :
    Bool × TgState × List TgEvent :=
  match tmLookup st.tracked_messages asin with
  | none => (false, st, [])
  | some m =>
    let r := tg_delete_message st m.message_id api_delete
    (true, { st with tracked_messages := tmErase st.tracked_messages asin },
     r.2)

/-- The shared state the two execution contexts of the process act on: the
order service's history (with its pending-delivery markers) and the Telegram
client's tracked messages. -/
structure SystemState where
  history : OrderHistory
  telegram : TgState
deriving DecidableEq, Repr

/-- The `cancel:` branch of `TelegramClient._process_callback`: it invokes
`self.cancel_order(asin)` on the Telegram client only.  No hook into the order
service exists on this path (unlike the ordered/delivered branches, `cancel_order`
invokes no callback, and `OrderHistory.clear_pending_delivery` has no caller
anywhere in the repository), so the order history is untouched. -/
def process_cancel_callback (s : SystemState) (api_delete : Bool)
    (asin : String) : SystemState × List TgEvent :=
  let r := tg_cancel_order s.telegram api_delete asin
  ({ s with telegram := r.2.1 }, r.2.2)

/-- The ReorderCalculator contract as §4.1 of the spec words it, for comparison
with the source's `Product.make`: "no error cases except input validation
(negative quantities rejected — signals InvalidInput)".  Negative current or
minimum quantities are rejected; otherwise the computation is that of the
source. -/
def reorderCalculatorSpec (id : ℤ) (name : String) (stock_amount
    stock_min_amount : ℚ) (qu_id_stock : ℤ) (qu_name amazon_asin : Option String)
    (amazon_order_units : ℤ) : Except String Product :=
  if stock_amount < 0 ∨ stock_min_amount < 0 then
    .error "InvalidInput"
  else
    .ok (Product.make id name stock_amount stock_min_amount qu_id_stock qu_name
      amazon_asin amazon_order_units)

/-! ## Helper lemmas -/

lemma dictLookup_cons {κ β : Type} [DecidableEq κ] (a : κ × β)
    (t : List (κ × β)) (k : κ) :
    dictLookup (a :: t) k = if a.1 = k then some a.2 else dictLookup t k := by
  by_cases ha : a.1 = k
  · simp [dictLookup, List.find?_cons, ha]
  · simp [dictLookup, List.find?_cons, ha]

lemma dictLookup_insert_self {κ β : Type} [DecidableEq κ] (l : List (κ × β))
    (k : κ) (v : β) : dictLookup (dictInsert l k v) k = some v := by
  unfold dictInsert
  by_cases h : (l.find? (fun kv => kv.1 = k)).isSome
  · simp only [h, if_true]
    induction l with
    | nil => simp at h
    | cons a t ih =>
      by_cases ha : a.1 = k
      · simp [dictLookup, List.find?_cons, ha]
      · have h' : (t.find? (fun kv => kv.1 = k)).isSome := by
          simpa [List.find?_cons, ha] using h
        simpa [dictLookup, List.find?_cons, ha] using ih h'
  · simp only [h, if_false]
    induction l with
    | nil => simp [dictLookup]
    | cons a t ih =>
      by_cases ha : a.1 = k
      · simp [List.find?_cons, ha] at h
      · have h' : ¬ (t.find? (fun kv => kv.1 = k)).isSome := by
          simpa [List.find?_cons, ha] using h
        simpa [dictLookup, List.find?_cons, ha] using ih h'

lemma dictLookup_append_one_ne {κ β : Type} [DecidableEq κ] (l : List (κ × β))
    (k k' : κ) (v : β) (hk : ¬ k = k') :
    dictLookup (l ++ [(k, v)]) k' = dictLookup l k' := by
  induction l with
  | nil => simp [dictLookup_cons, hk, dictLookup]
  | cons a t ih =>
    rw [List.cons_append, dictLookup_cons, dictLookup_cons]
    by_cases ha' : a.1 = k'
    · simp [ha']
    · simp [ha', ih]

lemma dictLookup_mapReplace_ne {κ β : Type} [DecidableEq κ] (l : List (κ × β))
    (k k' : κ) (v : β) (hk : ¬ k = k') :
    dictLookup (l.map (fun kv => if kv.1 = k then (k, v) else kv)) k' =
      dictLookup l k' := by
  induction l with
  | nil => rfl
  | cons a t ih =>
    rw [List.map_cons, dictLookup_cons, dictLookup_cons]
    by_cases ha : a.1 = k
    · have ha' : ¬ a.1 = k' := fun hh => hk (ha.symm.trans hh)
      simp only [ha, if_true, hk, ha', if_false, ih]
    · simp only [ha, if_false]
      by_cases ha' : a.1 = k'
      · simp [ha']
      · simp [ha', ih]

lemma dictLookup_insert_ne {κ β : Type} [DecidableEq κ] (l : List (κ × β))
    (k k' : κ) (v : β) (hne : k' ≠ k) :
    dictLookup (dictInsert l k v) k' = dictLookup l k' := by
  have hk : ¬ k = k' := fun hh => hne hh.symm
  unfold dictInsert
  by_cases h : (l.find? (fun kv => kv.1 = k)).isSome
  · simp only [h, if_true]
    exact dictLookup_mapReplace_ne l k k' v hk
  · simp only [h, if_false]
    exact dictLookup_append_one_ne l k k' v hk

lemma dictLookup_erase_self {κ β : Type} [DecidableEq κ] (l : List (κ × β))
    (k : κ) : dictLookup (dictErase l k) k = none := by
  induction l with
  | nil => simp [dictLookup, dictErase]
  | cons a t ih =>
    by_cases ha : a.1 = k
    · simpa [dictErase, List.filter_cons, ha] using ih
    · simpa [dictLookup, dictErase, List.filter_cons, List.find?_cons, ha]
        using ih

lemma dictLookup_erase_ne {κ β : Type} [DecidableEq κ] (l : List (κ × β))
    (k k' : κ) (hne : k' ≠ k) :
    dictLookup (dictErase l k) k' = dictLookup l k' := by
  induction l with
  | nil => rfl
  | cons a t ih =>
    by_cases ha : a.1 = k
    · have hstep : dictErase (a :: t) k = dictErase t k := by
        simp [dictErase, List.filter_cons, ha]
      have ha' : ¬ a.1 = k' := fun hh => hne (hh.symm.trans ha)
      rw [hstep, ih, dictLookup_cons, if_neg ha']
    · have hstep : dictErase (a :: t) k = a :: dictErase t k := by
        simp [dictErase, List.filter_cons, ha]
      rw [hstep, dictLookup_cons, dictLookup_cons, ih]

/-- Floor of the rational `(m + u - 1) / u` is the integer euclidean quotient. -/
lemma floorDivIdent (m u : ℤ) (hu : 1 ≤ u) :
    ⌊((m : ℚ) + u - 1) / u⌋ = (m + u - 1) / u := by
  have hu0 : (0 : ℚ) < (u : ℚ) := by exact_mod_cast hu
  have hdm := Int.ediv_add_emod (m + u - 1) u
  have hr0 : 0 ≤ (m + u - 1) % u := Int.emod_nonneg _ (by omega)
  have hru : (m + u - 1) % u < u := Int.emod_lt_of_pos _ (by omega)
  set q := (m + u - 1) / u with hq
  set r := (m + u - 1) % u with hr
  rw [Int.floor_eq_iff]
  constructor
  · rw [le_div_iff₀ hu0]
    have h1 : q * u ≤ m + u - 1 := by nlinarith
    calc ((q : ℚ)) * u = ((q * u : ℤ) : ℚ) := by push_cast; ring
    _ ≤ ((m + u - 1 : ℤ) : ℚ) := by exact_mod_cast h1
    _ = (m : ℚ) + u - 1 := by push_cast; ring
  · rw [div_lt_iff₀ hu0]
    have h2 : m + u - 1 < (q + 1) * u := by nlinarith
    calc (m : ℚ) + u - 1 = ((m + u - 1 : ℤ) : ℚ) := by push_cast; ring
    _ < (((q + 1) * u : ℤ) : ℚ) := by exact_mod_cast h2
    _ = ((q : ℚ) + 1) * u := by push_cast; ring

/-- Ceiling of the rational `m / u` is the same euclidean quotient
(the classic integer ceiling-division identity). -/
lemma ceilDivIdent (m u : ℤ) (hu : 1 ≤ u) :
    ⌈(m : ℚ) / u⌉ = (m + u - 1) / u := by
  have hu0 : (0 : ℚ) < (u : ℚ) := by exact_mod_cast hu
  have hdm := Int.ediv_add_emod (m + u - 1) u
  have hr0 : 0 ≤ (m + u - 1) % u := Int.emod_nonneg _ (by omega)
  have hru : (m + u - 1) % u < u := Int.emod_lt_of_pos _ (by omega)
  set q := (m + u - 1) / u with hq
  set r := (m + u - 1) % u with hr
  rw [Int.ceil_eq_iff]
  constructor
  · have h3 : (q - 1) * u < m := by nlinarith
    have h3q : ((q : ℚ) - 1) * u < m := by
      calc ((q : ℚ) - 1) * u = (((q - 1) * u : ℤ) : ℚ) := by push_cast; ring
      _ < (m : ℚ) := by exact_mod_cast h3
    linarith [(lt_div_iff₀ hu0).mpr h3q]
  · rw [div_le_iff₀ hu0]
    have h4 : m ≤ q * u := by nlinarith
    calc (m : ℚ) ≤ ((q * u : ℤ) : ℚ) := by exact_mod_cast h4
    _ = (q : ℚ) * u := by push_cast; ring

/-- The euclidean quotient `(m + u - 1) / u` is at least 1 for `m, u ≥ 1`. -/
lemma onele_ediv (m u : ℤ) (hm : 1 ≤ m) (hu : 1 ≤ u) : 1 ≤ (m + u - 1) / u := by
  have hdm := Int.ediv_add_emod (m + u - 1) u
  have hru : (m + u - 1) % u < u := Int.emod_lt_of_pos _ (by omega)
  nlinarith [Int.ediv_add_emod (m + u - 1) u]

/-! ## Claim theorems -/

/-- C2 (package rounding), evaluated at the failing input: a product with
missing amount 1.5 and 1 unit per package gets `packages_to_order = 1`,
while the ceiling `⌈1.5 / 1⌉ = 2` required by the claim (and by the code's own
"round up to the next full package count" comment) is 2.  The float idiom
`int((missing + units - 1) // units)` only computes the ceiling for integer
missing amounts. -/
theorem packagesRounding_eval :
    (Product.make 1 "Nudeln" 0 (3 / 2) 1 none (some "B123") 1).missing_amount
        = 3 / 2 ∧
    (Product.make 1 "Nudeln" 0 (3 / 2) 1 none (some "B123") 1).amazon_order_units
        = 1 ∧
    (Product.make 1 "Nudeln" 0 (3 / 2) 1 none (some "B123") 1).packages_to_order
        = 1 ∧
    ⌈(Product.make 1 "Nudeln" 0 (3 / 2) 1 none (some "B123") 1).missing_amount /
      ((Product.make 1 "Nudeln" 0 (3 / 2) 1 none
          (some "B123") 1).amazon_order_units : ℚ)⌉ = 2 := by
  refine ⟨by norm_num [Product.make], by norm_num [Product.make],
    by norm_num [Product.make], ?_⟩
  have h1 : (Product.make 1 "Nudeln" 0 (3 / 2) 1 none
      (some "B123") 1).missing_amount = 3 / 2 := by
    norm_num [Product.make]
  have h2 : (Product.make 1 "Nudeln" 0 (3 / 2) 1 none
      (some "B123") 1).amazon_order_units = 1 := by
    norm_num [Product.make]
  rw [h1, h2]
  norm_num
  rw [Int.ceil_eq_iff]
  norm_num

/-- C3 fails as stated: a product with no ASIN, stock 0 and minimum 5 has
`packages_to_order = 5 > 0` although its order identifier is absent
(`needs_reorder`, not `packages_to_order`, is what the ASIN gates). -/
theorem reorderNeedIff_counterexample :
    0 < (Product.make 1 "X" 0 5 1 none none 1).packages_to_order ∧
    (Product.make 1 "X" 0 5 1 none none 1).amazon_asin = none ∧
    (Product.make 1 "X" 0 5 1 none none 1).needs_reorder = false := by
  refine ⟨by norm_num [Product.make], by simp [Product.make],
    by simp [Product.make, Product.needs_reorder]⟩

/-- C3 amended: `packages_to_order > 0` iff the missing amount is positive AND
`amazon_order_units > 0` (the ASIN plays no role in it); the ASIN condition of
the claim instead characterises `needs_reorder`. -/
theorem reorderNeedIff_amended (id : ℤ) (name : String) (stock minq : ℚ)
    (qu : ℤ) (qn asin : Option String) (u : ℤ) :
    (0 < (Product.make id name stock minq qu qn asin u).packages_to_order ↔
      0 < (Product.make id name stock minq qu qn asin u).missing_amount ∧
        0 < u) ∧
    ((Product.make id name stock minq qu qn asin u).needs_reorder = true ↔
      0 < (Product.make id name stock minq qu qn asin u).missing_amount ∧
        ∃ s, asin = some s ∧ pyStrip s ≠ "") := by
  constructor
  · by_cases hc : 0 < max 0 (minq - stock) ∧ 0 < u
    · simp only [Product.make, hc, if_true]
      have hpos : (0 : ℤ) <
          max 1 ⌊(max 0 (minq - stock) + (u : ℚ) - 1) / (u : ℚ)⌋ :=
        lt_of_lt_of_le one_pos (le_max_left _ _)
      simp [hpos, hc]
    · simp only [Product.make, hc, if_false]
      simp [hc]
  · simp only [Product.make, Product.needs_reorder]
    cases asin with
    | none => simp
    | some s =>
      by_cases hs : pyStrip s = "" <;> simp [hs]

/-- C9 fails as stated: the constructor performs no input validation — for the
negative current quantity −5 it happily computes `missing = 15` and
`packages = 15`, while the spec-worded calculator (`reorderCalculatorSpec`)
rejects the same input with InvalidInput. -/
theorem inputValidation_counterexample :
    (Product.make 1 "X" (-5) 10 1 none (some "B1") 1).missing_amount = 15 ∧
    (Product.make 1 "X" (-5) 10 1 none (some "B1") 1).packages_to_order = 15 ∧
    reorderCalculatorSpec 1 "X" (-5) 10 1 none (some "B1") 1 =
      Except.error "InvalidInput" := by
  refine ⟨by norm_num [Product.make], by norm_num [Product.make], ?_⟩
  norm_num [reorderCalculatorSpec]

/-- C9 amended: construction never rejects anything — also for a negative
current quantity it totally computes `missing = max 0 (minimum − current)`
(so a negative stock inflates the missing amount), exactly where the spec's
calculator would signal InvalidInput. -/
theorem inputValidation_amended (id : ℤ) (name : String) (stock minq : ℚ)
    (qu : ℤ) (qn asin : Option String) (u : ℤ) (hneg : stock < 0) :
    (Product.make id name stock minq qu qn asin u).missing_amount =
      max 0 (minq - stock) ∧
    reorderCalculatorSpec id name stock minq qu qn asin u =
      Except.error "InvalidInput" := by
  constructor
  · simp [Product.make]
  · simp [reorderCalculatorSpec, hneg]

/-- Witness for `inputValidation_amended` at stock −5, minimum 10. -/
theorem inputValidation_witness :
    (-5 : ℚ) < 0 ∧
    ((Product.make 1 "X" (-5) 10 1 none (some "B1") 1).missing_amount =
        max 0 (10 - (-5)) ∧
      reorderCalculatorSpec 1 "X" (-5) 10 1 none (some "B1") 1 =
        Except.error "InvalidInput") :=
  ⟨by norm_num,
   inputValidation_amended 1 "X" (-5) 10 1 none (some "B1") 1 (by norm_num)⟩

/-- C4 fails as stated: for a product with no ASIN, with the daily limit not
reached and no pending-delivery marker, rules (1) and (2) of the claim do not
apply, so the claim's rule (3) promises "allowed" — but the code denies with
the no-ASIN reason: `can_place_order` has a third denial rule the claim
omits. -/
theorem decisionOrder_counterexample :
    OrderHistory.empty.count_orders_today 0 < 5 ∧
    pdLookup OrderHistory.empty.pending_deliveries
      (Product.make 1 "X" 0 5 1 none none 1).amazon_asin = none ∧
    (can_place_order 5 0 OrderHistory.empty
      (Product.make 1 "X" 0 5 1 none none 1)).1 = false ∧
    (can_place_order 5 0 OrderHistory.empty
      (Product.make 1 "X" 0 5 1 none none 1)).2.1 = CanOrderReason.noAsin :=
  ⟨by decide, rfl, rfl, rfl⟩

/-- C4 amended: the permission check applies first-match-wins (1) daily limit
reached → denied (daily-limit reason) regardless of any marker; (2) else
pending marker present and current stock ≤ marker stock → denied
(delivery-pending reason); (3) else missing/empty ASIN → denied (no-ASIN
reason); (4) otherwise allowed. -/
theorem decisionOrder_amended (limit : ℕ) (today : ℤ) (h : OrderHistory)
    (p : Product) :
    (limit ≤ h.count_orders_today today →
      can_place_order limit today h p =
        (false, .dailyLimit (h.count_orders_today today) limit, h)) ∧
    (h.count_orders_today today < limit →
      ∀ S, pdLookup h.pending_deliveries p.amazon_asin = some S →
        p.stock_amount ≤ S →
        can_place_order limit today h p =
          (false, .deliveryPending (some S) p.stock_amount, h)) ∧
    (h.count_orders_today today < limit →
      (pdLookup h.pending_deliveries p.amazon_asin = none ∨
        ∃ S, pdLookup h.pending_deliveries p.amazon_asin = some S ∧
          S < p.stock_amount) →
      strTruthy p.amazon_asin = false →
      (can_place_order limit today h p).1 = false ∧
      (can_place_order limit today h p).2.1 = CanOrderReason.noAsin) ∧
    (h.count_orders_today today < limit →
      (pdLookup h.pending_deliveries p.amazon_asin = none ∨
        ∃ S, pdLookup h.pending_deliveries p.amazon_asin = some S ∧
          S < p.stock_amount) →
      strTruthy p.amazon_asin = true →
      can_place_order limit today h p =
        (true, .ok,
          (h.is_delivery_pending p.amazon_asin p.stock_amount).2)) := by
  have hnotpending :
      ∀ (hcond : pdLookup h.pending_deliveries p.amazon_asin = none ∨
        ∃ S, pdLookup h.pending_deliveries p.amazon_asin = some S ∧
          S < p.stock_amount),
      (h.is_delivery_pending p.amazon_asin p.stock_amount).1 = false := by
    intro hcond
    rcases hcond with hnone | ⟨S, hS, hlt⟩
    · simp [OrderHistory.is_delivery_pending, hnone]
    · simp [OrderHistory.is_delivery_pending, hS, hlt]
  refine ⟨?_, ?_, ?_, ?_⟩
  · intro hge
    simp [can_place_order, hge]
  · intro hlt S hS hle
    have hnlt : ¬ S < p.stock_amount := not_lt.mpr hle
    simp [can_place_order, Nat.not_le.mpr hlt, OrderHistory.is_delivery_pending,
      hS, hnlt]
  · intro hlt hcond hfalse
    have hp := hnotpending hcond
    simp [can_place_order, Nat.not_le.mpr hlt, hp, hfalse]
  · intro hlt hcond htrue
    have hp := hnotpending hcond
    simp [can_place_order, Nat.not_le.mpr hlt, hp, htrue]

/-- Witness for `decisionOrder_amended`, rule (4): empty history, product with
ASIN "B123" → allowed. -/
theorem decisionOrder_witness :
    can_place_order 5 0 OrderHistory.empty
        (Product.make 1 "X" 0 5 1 none (some "B123") 1) =
      (true, .ok,
        (OrderHistory.empty.is_delivery_pending
          (Product.make 1 "X" 0 5 1 none (some "B123") 1).amazon_asin
          (Product.make 1 "X" 0 5 1 none (some "B123") 1).stock_amount).2) :=
  (decisionOrder_amended 5 0 OrderHistory.empty
    (Product.make 1 "X" 0 5 1 none (some "B123") 1)).2.2.2
    (by decide) (Or.inl rfl) (by decide)

/-- C1 (dedup invariant), in three parts: (1) a successful `process_order`
(here on the `cart_link` path) sets the pending-delivery marker of the ASIN to
the stock at order time; (2) while a marker `X ↦ S` exists, every
`can_place_order` call with current stock ≤ S is denied, leaves the markers
untouched, and — whenever the daily limit is not the blocking rule — carries
the delivery-pending reason; (3) a call that observes stock > S (daily limit
not reached) removes the marker, and is allowed provided the ASIN is
non-empty. -/
theorem dedupInvariant_confirmed :
    (∀ (s : OrderSettings) (tg fulfill_ok : Bool) (today : ℤ)
       (h : OrderHistory) (p : Product),
      s.dry_run = false →
      ((s.mode = "cart_link" ∨ s.mode = "notify_only") ∨
        ((s.mode = "voice_order" ∨ s.mode = "shopping_list") ∧
          fulfill_ok = true)) →
      (can_place_order s.max_orders_per_day today h p).1 = true →
      pdLookup
        (process_order s tg fulfill_ok today h p).history.pending_deliveries
        p.amazon_asin = some p.stock_amount) ∧
    (∀ (limit : ℕ) (today : ℤ) (h : OrderHistory) (p : Product) (S : ℚ),
      pdLookup h.pending_deliveries p.amazon_asin = some S →
      p.stock_amount ≤ S →
      (can_place_order limit today h p).1 = false ∧
      (can_place_order limit today h p).2.2.pending_deliveries =
        h.pending_deliveries ∧
      (h.count_orders_today today < limit →
        (can_place_order limit today h p).2.1 =
          CanOrderReason.deliveryPending (some S) p.stock_amount)) ∧
    (∀ (limit : ℕ) (today : ℤ) (h : OrderHistory) (p : Product) (S : ℚ),
      pdLookup h.pending_deliveries p.amazon_asin = some S →
      S < p.stock_amount →
      h.count_orders_today today < limit →
      pdLookup (can_place_order limit today h p).2.2.pending_deliveries
        p.amazon_asin = none ∧
      (strTruthy p.amazon_asin = true →
        (can_place_order limit today h p).1 = true)) := by
  refine ⟨?_, ?_, ?_⟩
  · intro s tg f today h p hdry hsucc hcan
    rcases hsucc with (h1 | h1) | ⟨(h1 | h1), hf⟩
    · simp [process_order, hcan, hdry, h1, OrderHistory.add_order,
        OrderHistory.mark_pending_delivery, pdLookup, pdInsert,
        dictLookup_insert_self]
    · simp [process_order, hcan, hdry, h1, OrderHistory.add_order,
        OrderHistory.mark_pending_delivery, pdLookup, pdInsert,
        dictLookup_insert_self]
    · simp [process_order, hcan, hdry, h1, hf, OrderHistory.add_order,
        OrderHistory.mark_pending_delivery, pdLookup, pdInsert,
        dictLookup_insert_self]
    · simp [process_order, hcan, hdry, h1, hf, OrderHistory.add_order,
        OrderHistory.mark_pending_delivery, pdLookup, pdInsert,
        dictLookup_insert_self]
  · intro limit today h p S hS hle
    have hnlt : ¬ S < p.stock_amount := not_lt.mpr hle
    by_cases hge : limit ≤ h.count_orders_today today
    · refine ⟨by simp [can_place_order, hge], by simp [can_place_order, hge],
        ?_⟩
      intro hlt
      exact absurd hge (Nat.not_le.mpr hlt)
    · have hlt := Nat.not_le.mp hge
      refine ⟨?_, ?_, ?_⟩
      · simp [can_place_order, hge, OrderHistory.is_delivery_pending, hS, hnlt]
      · simp [can_place_order, hge, OrderHistory.is_delivery_pending, hS, hnlt]
      · intro _
        simp [can_place_order, hge, OrderHistory.is_delivery_pending, hS, hnlt]
  · intro limit today h p S hS hlt2 hlt
    have hge : ¬ limit ≤ h.count_orders_today today := Nat.not_le.mpr hlt
    have hS' : dictLookup h.pending_deliveries p.amazon_asin = some S := hS
    constructor
    · by_cases ht : strTruthy p.amazon_asin
      · simp [can_place_order, hge, OrderHistory.is_delivery_pending, hS, hS',
          hlt2, ht, pdLookup, pdErase, dictLookup_erase_self]
      · simp [can_place_order, hge, OrderHistory.is_delivery_pending, hS, hS',
          hlt2, ht, pdLookup, pdErase, dictLookup_erase_self]
    · intro htrue
      simp [can_place_order, hge, OrderHistory.is_delivery_pending, hS, hS',
        hlt2, htrue]

/-- Witness for `dedupInvariant_confirmed`: placing at stock 5 marks
B123 ↦ 5; a later check at stock 5 is denied; a later check at stock 8
removes the marker. -/
theorem dedupInvariant_witness :
    pdLookup
      (process_order ⟨"cart_link", false, true, 5⟩ true true 0
          OrderHistory.empty
          (Product.make 1 "T" 5 10 1 none
            (some "B123") 20)).history.pending_deliveries
      (Product.make 1 "T" 5 10 1 none (some "B123") 20).amazon_asin =
        some (Product.make 1 "T" 5 10 1 none (some "B123") 20).stock_amount ∧
    (can_place_order 5 0 ⟨[], [(some "B123", 5)]⟩
        (Product.make 1 "T" 5 10 1 none (some "B123") 20)).1 = false ∧
    pdLookup
      (can_place_order 5 0 ⟨[], [(some "B123", 5)]⟩
          (Product.make 1 "T" 8 10 1 none
            (some "B123") 20)).2.2.pending_deliveries
      (Product.make 1 "T" 8 10 1 none (some "B123") 20).amazon_asin = none :=
  ⟨dedupInvariant_confirmed.1 ⟨"cart_link", false, true, 5⟩ true true 0
      OrderHistory.empty (Product.make 1 "T" 5 10 1 none (some "B123") 20)
      rfl (Or.inl (Or.inl rfl)) (by decide),
   (dedupInvariant_confirmed.2.1 5 0 ⟨[], [(some "B123", 5)]⟩
      (Product.make 1 "T" 5 10 1 none (some "B123") 20) 5 rfl
      (by norm_num [Product.make])).1,
   (dedupInvariant_confirmed.2.2 5 0 ⟨[], [(some "B123", 5)]⟩
      (Product.make 1 "T" 8 10 1 none (some "B123") 20) 5 rfl
      (by norm_num [Product.make]) (by decide)).1⟩

/-- C5 fails as stated: a denied order (daily limit 0) is returned as SKIPPED
but nothing is appended to the history, and a failed fulfillment (shopping-list
mode, external call fails) is returned as FAILED with, again, no ledger entry
appended — only successful orders are recorded. -/
theorem ledgerRecording_counterexample :
    (process_order ⟨"cart_link", false, true, 0⟩ true true 0 OrderHistory.empty
        (Product.make 1 "T" 5 10 1 none (some "B123") 20)).order.status =
      OrderStatus.skipped ∧
    (process_order ⟨"cart_link", false, true, 0⟩ true true 0 OrderHistory.empty
        (Product.make 1 "T" 5 10 1 none (some "B123") 20)).history.orders
      = [] ∧
    (process_order ⟨"shopping_list", false, true, 5⟩ true false 0
        OrderHistory.empty
        (Product.make 1 "T" 5 10 1 none (some "B123") 20)).order.status =
      OrderStatus.failed ∧
    (process_order ⟨"shopping_list", false, true, 5⟩ true false 0
        OrderHistory.empty
        (Product.make 1 "T" 5 10 1 none (some "B123") 20)).history.orders
      = [] :=
  ⟨rfl, rfl, rfl, rfl⟩

/-- C5 amended: `process_order` appends a ledger entry (and saves the history)
only on the success path; a denied order is returned as SKIPPED and a failed
one as FAILED, but neither is recorded in the history (nor saved), and a
dry run records nothing either. -/
theorem ledgerRecording_amended (s : OrderSettings) (tg fulfill_ok : Bool)
    (today : ℤ) (h : OrderHistory) (p : Product) :
    ((can_place_order s.max_orders_per_day today h p).1 = false →
      (process_order s tg fulfill_ok today h p).history.orders =
        (can_place_order s.max_orders_per_day today h p).2.2.orders ∧
      (process_order s tg fulfill_ok today h p).order.status =
        OrderStatus.skipped ∧
      (process_order s tg fulfill_ok today h p).saved = false) ∧
    ((can_place_order s.max_orders_per_day today h p).1 = true →
      s.dry_run = false →
      (((s.mode = "cart_link" ∨ s.mode = "notify_only") ∨
          ((s.mode = "voice_order" ∨ s.mode = "shopping_list") ∧
            fulfill_ok = true)) →
        (process_order s tg fulfill_ok today h p).history.orders =
          (can_place_order s.max_orders_per_day today h p).2.2.orders ++
            [(process_order s tg fulfill_ok today h p).order] ∧
        (process_order s tg fulfill_ok today h p).order.status =
          OrderStatus.added_to_list ∧
        (process_order s tg fulfill_ok today h p).saved = true) ∧
      (¬ (s.mode = "cart_link" ∨ s.mode = "notify_only") →
        ((s.mode = "voice_order" ∨ s.mode = "shopping_list") →
          fulfill_ok = false) →
        (process_order s tg fulfill_ok today h p).history.orders =
          (can_place_order s.max_orders_per_day today h p).2.2.orders ∧
        (process_order s tg fulfill_ok today h p).order.status =
          OrderStatus.failed ∧
        (process_order s tg fulfill_ok today h p).saved = false)) ∧
    ((can_place_order s.max_orders_per_day today h p).1 = true →
      s.dry_run = true →
      (process_order s tg fulfill_ok today h p).history.orders =
        (can_place_order s.max_orders_per_day today h p).2.2.orders ∧
      (process_order s tg fulfill_ok today h p).saved = false) := by
  refine ⟨?_, ?_, ?_⟩
  · intro hcan
    have hcan' : ¬ (can_place_order s.max_orders_per_day today h p).1 = true :=
      by simp [hcan]
    simp [process_order, hcan']
  · intro hcan hdry
    constructor
    · intro hsucc
      rcases hsucc with (h1 | h1) | ⟨h1, hf⟩
      · simp [process_order, hcan, hdry, h1, OrderHistory.mark_pending_delivery,
          OrderHistory.add_order, OrderRequest.mark_success]
      · by_cases hc : s.mode = "cart_link"
        · simp [process_order, hcan, hdry, hc,
            OrderHistory.mark_pending_delivery, OrderHistory.add_order,
            OrderRequest.mark_success]
        · by_cases hv : s.mode = "voice_order"
          · rw [h1] at hv
            simp at hv
          · by_cases hs : s.mode = "shopping_list"
            · rw [h1] at hs
              simp at hs
            · simp [process_order, hcan, hdry, hc, hv, hs, h1,
                OrderHistory.mark_pending_delivery, OrderHistory.add_order,
                OrderRequest.mark_success]
      · rcases h1 with h1 | h1
        · simp [process_order, hcan, hdry, h1, hf,
            OrderHistory.mark_pending_delivery, OrderHistory.add_order,
            OrderRequest.mark_success]
        · simp [process_order, hcan, hdry, h1, hf,
            OrderHistory.mark_pending_delivery, OrderHistory.add_order,
            OrderRequest.mark_success]
    · intro hnotsucc hfail
      have hc : ¬ s.mode = "cart_link" := fun hh => hnotsucc (Or.inl hh)
      have hn : ¬ s.mode = "notify_only" := fun hh => hnotsucc (Or.inr hh)
      by_cases hv : s.mode = "voice_order"
      · have hf := hfail (Or.inl hv)
        simp [process_order, hcan, hdry, hc, hn, hv, hf,
          OrderRequest.mark_failed]
      · by_cases hs : s.mode = "shopping_list"
        · have hf := hfail (Or.inr hs)
          simp [process_order, hcan, hdry, hc, hn, hs, hv, hf,
            OrderRequest.mark_failed]
        · simp [process_order, hcan, hdry, hc, hn, hs, hv,
            OrderRequest.mark_failed]
  · intro hcan hdry
    simp [process_order, hcan, hdry]

/-- Witness for `ledgerRecording_amended`: success path (cart-link mode)
appends the placed order and saves. -/
theorem ledgerRecording_witness :
    (process_order ⟨"cart_link", false, true, 5⟩ true true 0 OrderHistory.empty
        (Product.make 1 "T" 5 10 1 none (some "B123") 20)).history.orders =
      (can_place_order 5 0 OrderHistory.empty
          (Product.make 1 "T" 5 10 1 none (some "B123") 20)).2.2.orders ++
        [(process_order ⟨"cart_link", false, true, 5⟩ true true 0
            OrderHistory.empty
            (Product.make 1 "T" 5 10 1 none (some "B123") 20)).order] ∧
    (process_order ⟨"cart_link", false, true, 5⟩ true true 0 OrderHistory.empty
        (Product.make 1 "T" 5 10 1 none (some "B123") 20)).order.status =
      OrderStatus.added_to_list ∧
    (process_order ⟨"cart_link", false, true, 5⟩ true true 0 OrderHistory.empty
        (Product.make 1 "T" 5 10 1 none (some "B123") 20)).saved = true :=
  ((ledgerRecording_amended ⟨"cart_link", false, true, 5⟩ true true 0
      OrderHistory.empty
      (Product.make 1 "T" 5 10 1 none (some "B123") 20)).2.1
    (by decide) rfl).1 (Or.inl (Or.inl rfl))

/-- C6 fails as stated: a history holding one order placed today round-trips
through save/load into a history with NO orders — `_load_history` reads only
`pending_deliveries` — so the count of orders placed today is 1 before the
restart and 0 after. -/
theorem persistenceRoundtrip_counterexample :
    OrderHistory.count_orders_today
      ⟨[OrderRequest.make (Product.make 1 "T" 5 10 1 none (some "B123") 20) 1
          (some "B123") 0], [(some "B123", 5)]⟩ 0 = 1 ∧
    (load_history (save_history
      ⟨[OrderRequest.make (Product.make 1 "T" 5 10 1 none (some "B123") 20) 1
          (some "B123") 0], [(some "B123", 5)]⟩)).count_orders_today 0 = 0 ∧
    (load_history (save_history
      ⟨[OrderRequest.make (Product.make 1 "T" 5 10 1 none (some "B123") 20) 1
          (some "B123") 0], [(some "B123", 5)]⟩)).orders = [] :=
  ⟨rfl, rfl, rfl⟩

/-- C6 amended: the save/load round trip restores exactly the pending-delivery
markers; the ledger entries are written out but never read back, so the
restored orders list is empty and the orders-today count is 0 after every
restart. -/
theorem persistenceRoundtrip_amended (h : OrderHistory) (today : ℤ) :
    (load_history (save_history h)).pending_deliveries =
      h.pending_deliveries ∧
    (load_history (save_history h)).orders = [] ∧
    (load_history (save_history h)).count_orders_today today = 0 :=
  ⟨rfl, rfl, rfl⟩

/-- C7 (upsert idempotence): a first `send_order_notification` for an
untracked ASIN issues exactly one Send and tracks the entry as
not-ordered/not-delivered; every further call for an ASIN whose tracked entry
is not yet ordered issues NO Send (events contain no send), returns success,
and leaves the entry not-ordered — so exactly one Send ever occurs per live
entry. -/
theorem upsertIdempotence_confirmed :
    (∀ (st : TgState) (mid : ℤ) (api_edit : Bool) (pn : String) (pid q : ℤ)
       (asin : String) (cs ms : ℚ) (unit cu : String) (today : ℤ),
      st.enabled = true →
      tmLookup st.tracked_messages asin = none →
      (tg_send_order_notification st (some mid) api_edit pn pid q asin cs ms
          unit cu today).2.2 = [TgEvent.send] ∧
      ∃ m, tmLookup (tg_send_order_notification st (some mid) api_edit pn pid
            q asin cs ms unit cu today).2.1.tracked_messages asin = some m ∧
          m.ordered = false ∧ m.delivered = false) ∧
    (∀ (st : TgState) (api_send : Option ℤ) (api_edit : Bool) (pn : String)
       (pid q : ℤ) (asin : String) (cs ms : ℚ) (unit cu : String) (today : ℤ)
       (m : TrackedMessage),
      tmLookup st.tracked_messages asin = some m →
      m.ordered = false →
      (tg_send_order_notification st api_send api_edit pn pid q asin cs ms
          unit cu today).2.2.filter (fun e => e.isSend) = [] ∧
      (tg_send_order_notification st api_send api_edit pn pid q asin cs ms
          unit cu today).1 = true ∧
      ∃ m', tmLookup (tg_send_order_notification st api_send api_edit pn pid
            q asin cs ms unit cu today).2.1.tracked_messages asin = some m' ∧
          m'.ordered = false) := by
  constructor
  · intro st mid api_edit pn pid q asin cs ms unit cu today he hnone
    have hnone' : dictLookup st.tracked_messages asin = none := hnone
    simp [tg_send_order_notification, hnone, hnone', tg_send_message, he,
      tmLookup, tmSet, dictLookup_insert_self]
  · intro st api_send api_edit pn pid q asin cs ms unit cu today m hm hord
    have hm' : dictLookup st.tracked_messages asin = some m := hm
    by_cases he : st.enabled = true
    · simp [tg_send_order_notification, hm, hm', hord, tmLookup, tmSet,
        tg_update_message_content, tg_edit_message, he, dictLookup_insert_self,
        TgEvent.isSend]
    · simp [tg_send_order_notification, hm, hm', hord, tmLookup, tmSet,
        tg_update_message_content, tg_edit_message, he, dictLookup_insert_self,
        TgEvent.isSend]

/-- Witness for `upsertIdempotence_confirmed`: first call on an untracked
ASIN sends once; a second identical call on the tracked, not-yet-ordered
entry sends nothing and succeeds. -/
theorem upsertIdempotence_witness :
    (tg_send_order_notification ⟨true, "chat", []⟩ (some 10) true "T" 1 1
        "B123" 5 10 "Stk" "url" 0).2.2 = [TgEvent.send] ∧
    (∃ m, tmLookup (tg_send_order_notification ⟨true, "chat", []⟩ (some 10)
          true "T" 1 1 "B123" 5 10 "Stk" "url" 0).2.1.tracked_messages
        "B123" = some m ∧ m.ordered = false ∧ m.delivered = false) ∧
    (tg_send_order_notification
        ⟨true, "chat", [("B123", ⟨10, "chat", 1, "T", "B123", 1, "Stk", "url",
          5, 10, 0, false, none, false, none⟩)]⟩ (some 11) true "T" 1 1
        "B123" 5 10 "Stk" "url" 0).2.2.filter (fun e => e.isSend) = [] ∧
    (tg_send_order_notification
        ⟨true, "chat", [("B123", ⟨10, "chat", 1, "T", "B123", 1, "Stk", "url",
          5, 10, 0, false, none, false, none⟩)]⟩ (some 11) true "T" 1 1
        "B123" 5 10 "Stk" "url" 0).1 = true :=
  ⟨(upsertIdempotence_confirmed.1 ⟨true, "chat", []⟩ 10 true "T" 1 1 "B123"
      5 10 "Stk" "url" 0 rfl rfl).1,
   (upsertIdempotence_confirmed.1 ⟨true, "chat", []⟩ 10 true "T" 1 1 "B123"
      5 10 "Stk" "url" 0 rfl rfl).2,
   (upsertIdempotence_confirmed.2
      ⟨true, "chat", [("B123", ⟨10, "chat", 1, "T", "B123", 1, "Stk", "url",
        5, 10, 0, false, none, false, none⟩)]⟩ (some 11) true "T" 1 1 "B123"
      5 10 "Stk" "url" 0
      ⟨10, "chat", 1, "T", "B123", 1, "Stk", "url", 5, 10, 0, false, none,
        false, none⟩ rfl rfl).1,
   (upsertIdempotence_confirmed.2
      ⟨true, "chat", [("B123", ⟨10, "chat", 1, "T", "B123", 1, "Stk", "url",
        5, 10, 0, false, none, false, none⟩)]⟩ (some 11) true "T" 1 1 "B123"
      5 10 "Stk" "url" 0
      ⟨10, "chat", 1, "T", "B123", 1, "Stk", "url", 5, 10, 0, false, none,
        false, none⟩ rfl rfl).2.1⟩

/-- C8 fails as stated: in a system state with marker B123 ↦ 5 and a live
lifecycle entry for B123, handling the cancel callback removes the entry and
deletes the message, but the pending-delivery marker survives
(`clear_pending_delivery` has no caller), so a new order for B123 at
stock 5 is still denied after the cancellation. -/
theorem cancelClearsMarker_counterexample :
    (process_cancel_callback
        ⟨⟨[], [(some "B123", 5)]⟩,
         ⟨true, "chat", [("B123", ⟨10, "chat", 1, "T", "B123", 1, "Stk",
           "url", 5, 10, 0, false, none, false, none⟩)]⟩⟩ true
        "B123").1.history.pending_deliveries = [(some "B123", 5)] ∧
    tmLookup
      (process_cancel_callback
        ⟨⟨[], [(some "B123", 5)]⟩,
         ⟨true, "chat", [("B123", ⟨10, "chat", 1, "T", "B123", 1, "Stk",
           "url", 5, 10, 0, false, none, false, none⟩)]⟩⟩ true
        "B123").1.telegram.tracked_messages "B123" = none ∧
    (process_cancel_callback
        ⟨⟨[], [(some "B123", 5)]⟩,
         ⟨true, "chat", [("B123", ⟨10, "chat", 1, "T", "B123", 1, "Stk",
           "url", 5, 10, 0, false, none, false, none⟩)]⟩⟩ true
        "B123").2 = [TgEvent.delete 10] ∧
    (can_place_order 5 0
        (process_cancel_callback
          ⟨⟨[], [(some "B123", 5)]⟩,
           ⟨true, "chat", [("B123", ⟨10, "chat", 1, "T", "B123", 1, "Stk",
             "url", 5, 10, 0, false, none, false, none⟩)]⟩⟩ true
          "B123").1.history
        (Product.make 1 "T" 5 10 1 none (some "B123") 20)).1 = false :=
  ⟨rfl, rfl, rfl, rfl⟩

/-- C8 amended: handling a cancel callback for a tracked ASIN removes the
lifecycle entry and deletes the notification message, but leaves the order
history — and with it every pending-delivery marker — completely unchanged;
the marker is only removed later by a stock observation above the marker
level. -/
theorem cancelClearsMarker_amended (s : SystemState) (api_delete : Bool)
    (asin : String) (m : TrackedMessage)
    (hm : tmLookup s.telegram.tracked_messages asin = some m) :
    (process_cancel_callback s api_delete asin).1.history = s.history ∧
    tmLookup (process_cancel_callback s api_delete
        asin).1.telegram.tracked_messages asin = none ∧
    (s.telegram.enabled = true →
      (process_cancel_callback s api_delete asin).2 =
        [TgEvent.delete m.message_id]) := by
  have hm' : dictLookup s.telegram.tracked_messages asin = some m := hm
  refine ⟨?_, ?_, ?_⟩
  · simp [process_cancel_callback, tg_cancel_order, hm, hm']
  · simp [process_cancel_callback, tg_cancel_order, hm, hm', tmLookup,
      tmErase, dictLookup_erase_self]
  · intro he
    simp [process_cancel_callback, tg_cancel_order, hm, hm',
      tg_delete_message, he]

/-- Witness for `cancelClearsMarker_amended` at a concrete system state. -/
theorem cancelClearsMarker_witness :
    (process_cancel_callback
        ⟨⟨[], [(some "B123", 5)]⟩,
         ⟨true, "chat", [("B123", ⟨10, "chat", 1, "T", "B123", 1, "Stk",
           "url", 5, 10, 0, false, none, false, none⟩)]⟩⟩ true
        "B123").1.history =
      (⟨[], [(some "B123", 5)]⟩ : OrderHistory) ∧
    tmLookup
      (process_cancel_callback
        ⟨⟨[], [(some "B123", 5)]⟩,
         ⟨true, "chat", [("B123", ⟨10, "chat", 1, "T", "B123", 1, "Stk",
           "url", 5, 10, 0, false, none, false, none⟩)]⟩⟩ true
        "B123").1.telegram.tracked_messages "B123" = none :=
  ⟨(cancelClearsMarker_amended
      ⟨⟨[], [(some "B123", 5)]⟩,
       ⟨true, "chat", [("B123", ⟨10, "chat", 1, "T", "B123", 1, "Stk",
         "url", 5, 10, 0, false, none, false, none⟩)]⟩⟩ true "B123"
      ⟨10, "chat", 1, "T", "B123", 1, "Stk", "url", 5, 10, 0, false, none,
        false, none⟩ rfl).1,
   (cancelClearsMarker_amended
      ⟨⟨[], [(some "B123", 5)]⟩,
       ⟨true, "chat", [("B123", ⟨10, "chat", 1, "T", "B123", 1, "Stk",
         "url", 5, 10, 0, false, none, false, none⟩)]⟩⟩ true "B123"
      ⟨10, "chat", 1, "T", "B123", 1, "Stk", "url", 5, 10, 0, false, none,
        false, none⟩ rfl).2.1⟩

/-- C10: no `Product` attribute is named `amazon_order_unit` (the field is
`amazon_order_units`), so on every successfully placed order — in any of the
four success paths: `cart_link`, `notify_only`, or `voice_order` /
`shopping_list` with a successful fulfillment call — with Telegram configured
and order notifications on, `_notify_order` raises AttributeError while
evaluating the arguments of `send_order_notification`; the exception is caught
(and logged) inside `_notify_order`, the Telegram send — and with it the
lifecycle-entry creation — is never reached, while the ledger update (order
appended, marker set) and the history save completed beforehand. -/
theorem notifyAttributeError_confirmed (s : OrderSettings) (fulfill_ok : Bool)
    (today : ℤ) (h : OrderHistory) (p : Product)
    (hnotify : s.notify_on_order = true) (hdry : s.dry_run = false)
    (hsucc : (s.mode = "cart_link" ∨ s.mode = "notify_only") ∨
      ((s.mode = "voice_order" ∨ s.mode = "shopping_list") ∧
        fulfill_ok = true))
    (hcan : (can_place_order s.max_orders_per_day today h p).1 = true) :
    p.hasAttrName "amazon_order_unit" = false ∧
    (process_order s true fulfill_ok today h p).notify =
      some { hass_notified := true, telegram_branch_entered := true,
             telegram_send_reached := false, attribute_error_caught := true } ∧
    (process_order s true fulfill_ok today h p).saved = true ∧
    (process_order s true fulfill_ok today h p).history.orders =
      (can_place_order s.max_orders_per_day today h p).2.2.orders ++
        [(process_order s true fulfill_ok today h p).order] ∧
    pdLookup
      (process_order s true fulfill_ok today h p).history.pending_deliveries
      p.amazon_asin = some p.stock_amount := by
  have hattr : p.hasAttrName "amazon_order_unit" = false := rfl
  rcases hsucc with (h1 | h1) | ⟨(h1 | h1), hf⟩
  · refine ⟨hattr, ?_, ?_, ?_, ?_⟩ <;>
      simp [process_order, hcan, hdry, h1, notify_order, hnotify, hattr,
        OrderHistory.mark_pending_delivery, OrderHistory.add_order,
        OrderRequest.mark_success, pdLookup, pdInsert, dictLookup_insert_self]
  · refine ⟨hattr, ?_, ?_, ?_, ?_⟩ <;>
      simp [process_order, hcan, hdry, h1, notify_order, hnotify, hattr,
        OrderHistory.mark_pending_delivery, OrderHistory.add_order,
        OrderRequest.mark_success, pdLookup, pdInsert, dictLookup_insert_self]
  · refine ⟨hattr, ?_, ?_, ?_, ?_⟩ <;>
      simp [process_order, hcan, hdry, h1, hf, notify_order, hnotify, hattr,
        OrderHistory.mark_pending_delivery, OrderHistory.add_order,
        OrderRequest.mark_success, pdLookup, pdInsert, dictLookup_insert_self]
  · refine ⟨hattr, ?_, ?_, ?_, ?_⟩ <;>
      simp [process_order, hcan, hdry, h1, hf, notify_order, hnotify, hattr,
        OrderHistory.mark_pending_delivery, OrderHistory.add_order,
        OrderRequest.mark_success, pdLookup, pdInsert, dictLookup_insert_self]

/-- Witness for `notifyAttributeError_confirmed` at a concrete order placed
in the `shopping_list` mode (a mode `config.validate_mode` admits) with a
successful external fulfillment call. -/
theorem notifyAttributeError_witness :
    (Product.make 1 "T" 5 10 1 none (some "B123") 20).hasAttrName
      "amazon_order_unit" = false ∧
    (process_order ⟨"shopping_list", false, true, 5⟩ true true 0
        OrderHistory.empty
        (Product.make 1 "T" 5 10 1 none (some "B123") 20)).notify =
      some { hass_notified := true, telegram_branch_entered := true,
             telegram_send_reached := false, attribute_error_caught := true } ∧
    (process_order ⟨"shopping_list", false, true, 5⟩ true true 0
        OrderHistory.empty
        (Product.make 1 "T" 5 10 1 none (some "B123") 20)).saved = true ∧
    (process_order ⟨"shopping_list", false, true, 5⟩ true true 0
        OrderHistory.empty
        (Product.make 1 "T" 5 10 1 none (some "B123") 20)).history.orders =
      (can_place_order 5 0 OrderHistory.empty
          (Product.make 1 "T" 5 10 1 none (some "B123") 20)).2.2.orders ++
        [(process_order ⟨"shopping_list", false, true, 5⟩ true true 0
            OrderHistory.empty
            (Product.make 1 "T" 5 10 1 none (some "B123") 20)).order] ∧
    pdLookup
      (process_order ⟨"shopping_list", false, true, 5⟩ true true 0
          OrderHistory.empty
          (Product.make 1 "T" 5 10 1 none
            (some "B123") 20)).history.pending_deliveries
      (Product.make 1 "T" 5 10 1 none (some "B123") 20).amazon_asin =
        some (Product.make 1 "T" 5 10 1 none (some "B123") 20).stock_amount :=
  notifyAttributeError_confirmed ⟨"shopping_list", false, true, 5⟩ true 0
    OrderHistory.empty (Product.make 1 "T" 5 10 1 none (some "B123") 20)
    rfl rfl (Or.inr ⟨Or.inr rfl, rfl⟩) (by decide)

end GrocyAutoBuy
